import Mathlib

/-!
Verification of the openclaw-webhook-bridge core against its specification.

The definitions below are shallow embeddings of the Rust sources:
`src/sessions/types.rs`, `src/sessions/store.rs`, `src/commands/mod.rs`,
`src/bridge/mod.rs`, `src/openclaw/mod.rs` and `src/webhook/mod.rs`.
Effectful inputs (generated session ids, wall-clock timestamps, package
version) are passed as explicit parameters; the session store is modelled
as an association list observed through lookup, mirroring the single-writer
JSON document the Rust `Store` maintains.
-/

/-- `str::trim` of Rust, over the character list so that it evaluates by
kernel reduction: leading and trailing whitespace removed. -/
def strTrim (s : String) : String :=
  ⟨((s.data.dropWhile Char.isWhitespace).reverse.dropWhile Char.isWhitespace).reverse⟩

/-- `str::starts_with` of Rust, over the character lists. -/
def strStartsWith (s p : String) : Bool :=
  p.data.isPrefixOf s.data

/-- Dropping the first `n` characters of a string (`&s[k..]` on a
character-aligned boundary), over the character list. -/
def strDropChars (s : String) (n : Nat) : String :=
  ⟨s.data.drop n⟩

/-- A JSON value, modelling `serde_json::Value`. -/
inductive Json where
  | null
  | bool (b : Bool)
  | num (n : Int)
  | str (s : String)
  | arr (items : List Json)
  | obj (fields : List (String × Json))

/-- `Value::get(key)`: field lookup on an object, `None` otherwise. -/
def Json.get : Json → String → Option Json
  | .obj fields, key => (fields.find? (fun f => f.1 == key)).map (fun f => f.2)
  | _, _ => none

/-- `Value::as_str()`. -/
def Json.asStr : Json → Option String
  | .str s => some s
  | _ => none

/-- `Value::as_array()`. -/
def Json.asArr : Json → Option (List Json)
  | .arr items => some items
  | _ => none

/-- `SessionScope` from `src/sessions/types.rs`. -/
inductive SessionScope where
  | PerSender
  | Global
deriving DecidableEq

/-- `DeliveryContext` from `src/sessions/types.rs`; `toDest` embeds the Rust
field `to` (a reserved word here). -/
structure DeliveryContext where
  channel : Option String
  toDest : Option String
  account_id : Option String
  thread_id : Option String
deriving DecidableEq

/-- `SessionEntry` from `src/sessions/types.rs`. -/
structure SessionEntry where
  session_id : String
  updated_at : Int
  session_file : Option String
  delivery_context : Option DeliveryContext
  last_channel : Option String
  last_to : Option String
  last_account_id : Option String
  last_thread_id : Option String
  webhook_message_id : Option String
  webhook_session_id : Option String
deriving DecidableEq

/-- The durable mapping session key -> entry (`SessionStore` in types.rs),
observed through key lookup as the Rust `HashMap` is. -/
abbrev SessionStore := List (String × SessionEntry)

/-- `HashMap::get` on the store. -/
def SessionStore.find (s : SessionStore) (key : String) : Option SessionEntry :=
  (List.find? (fun p => p.1 == key) s).map (fun p => p.2)

/-- `HashMap::insert` on the store: the new binding replaces any old one. -/
def SessionStore.insert (s : SessionStore) (key : String) (e : SessionEntry) : SessionStore :=
  (key, e) :: List.filter (fun p => p.1 != key) s

/-- `DEFAULT_RESET_TRIGGERS` from `src/sessions/types.rs`. -/
def DEFAULT_RESET_TRIGGERS : List String := ["/new", "/reset"]

/-- `normalize_session_key` from `src/sessions/types.rs`. -/
def Sessions.normalize_session_key (key : String) : String :=
  strTrim key

/-- The reduced `WebhookMessage` of `src/sessions/types.rs` used by the
scope fallback resolver. -/
structure Sessions.WebhookMessage where
  id : String
  content : String
  session : Option String
deriving DecidableEq

/-- `resolve_session_key` from `src/sessions/types.rs`: the scope fallback. -/
def Sessions.resolve_session_key (scope : SessionScope) (msg : Sessions.WebhookMessage) : String :=
  match scope with
  | .Global => "global"
  | .PerSender => "webhook:" ++ msg.id

/-- `WebhookSessionParams` from `src/sessions/types.rs`. -/
structure Sessions.WebhookSessionParams where
  agent_id : String
  peer_kind : String
  peer_id : String
  topic_id : Option String
  thread_id : Option String

/-- `build_webhook_session_key` from `src/sessions/types.rs`. -/
def Sessions.build_webhook_session_key (params : Sessions.WebhookSessionParams) : Option String :=
  if params.peer_kind = "" ∨ params.peer_id = "" then
    none
  else
    let key := "webhook:" ++ params.agent_id ++ ":" ++ params.peer_kind ++ ":" ++ params.peer_id
    let key := match params.topic_id with
      | some topic => if topic ≠ "" then key ++ ":" ++ topic else key
      | none => key
    let key := match params.thread_id with
      | some thread => if thread ≠ "" then key ++ ":" ++ thread else key
      | none => key
    some key

/-- A fresh `SessionEntry` as both `Store::record_inbound_meta` and the
bridge's reset branch construct it, with the generated id and the current
timestamp passed explicitly. -/
def freshEntry (sid : String) (now : Int) : SessionEntry :=
  { session_id := sid
    updated_at := now
    session_file := none
    delivery_context := none
    last_channel := none
    last_to := none
    last_account_id := none
    last_thread_id := none
    webhook_message_id := none
    webhook_session_id := none }

/-- `Store::update_entry` from `src/sessions/store.rs`: the transform sees
the existing entry (or none) and its result is upserted. -/
def Store.update_entry (key : String) (f : Option SessionEntry → SessionEntry) (s : SessionStore) : SessionStore :=
  s.insert key (f (s.find key))

/-- `Store::record_inbound_meta` from `src/sessions/store.rs`. `freshId` is
the `generate_session_id()` value and `now` the `current_timestamp()` value. -/
def Store.record_inbound_meta (freshId : String) (now : Int) (key msgId : String) (ctx : DeliveryContext) (s : SessionStore) : SessionStore :=
  Store.update_entry key (fun existing =>
    let entry := match existing with
      | some e => e
      | none => freshEntry freshId now
    { entry with
        updated_at := now
        delivery_context := some ctx
        last_channel := ctx.channel
        last_to := ctx.toDest
        last_account_id := ctx.account_id
        last_thread_id := ctx.thread_id
        webhook_message_id := some msgId }) s

/-- `Store::update_last_route` from `src/sessions/store.rs`: only the route
fields present in the context are written. -/
def Store.update_last_route (freshId : String) (now : Int) (key : String) (ctx : DeliveryContext) (s : SessionStore) : SessionStore :=
  Store.update_entry key (fun existing =>
    let entry := match existing with
      | some e => e
      | none => freshEntry freshId now
    let entry := { entry with updated_at := now }
    let entry := if ctx.channel.isSome then { entry with last_channel := ctx.channel } else entry
    let entry := if ctx.account_id.isSome then { entry with last_account_id := ctx.account_id } else entry
    entry) s

/-- `is_command` from `src/commands/mod.rs`. -/
def Commands.is_command (content : String) : Bool :=
  strStartsWith (strTrim content) "/"

/-- `CommandHandler::should_forward_to_gateway` from `src/commands/mod.rs`. -/
def Commands.should_forward_to_gateway (content : String) : Bool :=
  !(content == "/help" || content == "/version")

/-- The `/help` reply text from `src/commands/mod.rs`. -/
def Commands.helpText : String :=
  "Available commands:\n/help - Show this help message\n/version - Show bridge version\n/new - Start a new conversation (forwarded to gateway)\n/reset - Reset current conversation (forwarded to gateway)\n\nMost other commands are forwarded to the OpenClaw Gateway."

/-- The `/version` reply text from `src/commands/mod.rs`; the crate version
is a parameter. -/
def Commands.versionText (pkgVersion : String) : String :=
  "OpenClaw Bridge Rust v" ++ pkgVersion ++ " (Rust implementation)"

/-- The outcome of `CommandHandler::handle_command`: the Rust code signals
forwarding through an error string prefixed `FORWARD_TO_GATEWAY:`, which the
bridge decodes; the two outcomes are modelled directly. -/
inductive CommandResult where
  | reply (text : String)
  | forwardToGateway (content : String)
deriving DecidableEq

/-- `CommandHandler::handle_command` from `src/commands/mod.rs`. -/
def Commands.handle_command (pkgVersion : String) (content : String) : CommandResult :=
  let trimmed := strTrim content
  if Commands.should_forward_to_gateway trimmed then
    .forwardToGateway trimmed
  else if trimmed = "/help" then
    .reply Commands.helpText
  else if trimmed = "/version" then
    .reply (Commands.versionText pkgVersion)
  else
    .reply ("Unknown command: " ++ trimmed ++ ". Type /help for available commands.")

/-- `WebhookMessage` from `src/bridge/mod.rs` (the full conversational
envelope). -/
structure Bridge.WebhookMessage where
  id : String
  content : String
  session : Option String
  peer_kind : Option String
  peer_id : Option String
  chat_type : Option String
  chat_id : Option String
  sender_id : Option String
  topic_id : Option String
  thread_id : Option String
  msg_type : Option String
deriving DecidableEq

/-- `Bridge::coalesce_string` from `src/bridge/mod.rs`: first value whose
trim is non-empty, returned trimmed. -/
def Bridge.coalesce_string : List (Option String) → Option String
  | [] => none
  | none :: rest => Bridge.coalesce_string rest
  | some v :: rest =>
    let trimmed := strTrim v
    if trimmed = "" then Bridge.coalesce_string rest else some trimmed

/-- `Bridge::resolve_session_key` from `src/bridge/mod.rs`. -/
def Bridge.resolve_session_key (agentId : String) (scope : SessionScope) (msg : Bridge.WebhookMessage) : String :=
  match msg.session with
  | some session => Sessions.normalize_session_key session
  | none =>
    let peerKind := Bridge.coalesce_string [msg.peer_kind, msg.chat_type]
    let peerId := Bridge.coalesce_string [msg.peer_id, msg.chat_id, msg.sender_id]
    match peerKind, peerId with
    | some kind, some pid =>
      match Sessions.build_webhook_session_key
          { agent_id := agentId, peer_kind := kind, peer_id := pid,
            topic_id := msg.topic_id, thread_id := msg.thread_id } with
      | some key => key
      | none => Sessions.resolve_session_key scope { id := msg.id, content := msg.content, session := msg.session }
    | _, _ => Sessions.resolve_session_key scope { id := msg.id, content := msg.content, session := msg.session }

/-- `Bridge::resolve_delivery_thread_id` from `src/bridge/mod.rs`. -/
def Bridge.resolve_delivery_thread_id (msg : Bridge.WebhookMessage) : Option String :=
  match msg.peer_kind.or msg.chat_type with
  | none => none
  | some peerKind =>
    if peerKind = "dm" then msg.thread_id
    else if peerKind = "group" ∨ peerKind = "channel" then msg.topic_id.or msg.thread_id
    else none

/-- `Bridge::is_reset_trigger` from `src/bridge/mod.rs`: the trimmed content
must equal a trigger exactly. -/
def Bridge.is_reset_trigger (content : String) : Bool :=
  DEFAULT_RESET_TRIGGERS.any (fun trigger => strTrim content == trigger)

/-- The loop body of `Bridge::strip_reset_trigger`, over the trigger list. -/
def Bridge.strip_reset_trigger_go (content trimmed : String) : List String → String
  | [] => content
  | trigger :: rest =>
    if trimmed = trigger then ""
    else if strStartsWith trimmed trigger && decide (trimmed.length > trigger.length)
        && (trimmed.data.get? trigger.length == some ' ') then
      (strTrim (strDropChars trimmed (trigger.length + 1)))
    else Bridge.strip_reset_trigger_go content trimmed rest

/-- `Bridge::strip_reset_trigger` from `src/bridge/mod.rs`. -/
def Bridge.strip_reset_trigger (content : String) : String :=
  Bridge.strip_reset_trigger_go content (strTrim content) DEFAULT_RESET_TRIGGERS

/-- The control `type` check of `Bridge::handle_webhook_message` (values
`connected`, `error`, `event` are skipped). -/
def Bridge.isControlMsgType : Option String → Bool
  | some t => t == "connected" || t == "error" || t == "event"
  | none => false

/-- The result of `Bridge::convert_event_to_webhook_format`: either a built
`{type, content, session}` response or the original event passed through. -/
inductive ConvertResult where
  | response (otype content session : String)
  | passthrough (event : Json)

/-- The text-accumulation loop of the `chat` branch of
`Bridge::convert_event_to_webhook_format`: an item whose `type` field is
missing or not a string aborts the whole conversion (the Rust `?`
propagates out of the function). -/
def Bridge.chatTextGo : List Json → String → Option String
  | [], acc => some acc
  | item :: rest, acc =>
    match (item.get "type").bind Json.asStr with
    | none => none
    | some t =>
      if t = "text" then
        match (item.get "text").bind Json.asStr with
        | some tx => Bridge.chatTextGo rest (acc ++ tx)
        | none => Bridge.chatTextGo rest acc
      else Bridge.chatTextGo rest acc

/-- Text extraction of the `chat` branch: absent `message` or non-array
`content` leaves the text empty. -/
def Bridge.chatText (event : Json) : Option String :=
  match event.get "message" with
  | none => some ""
  | some message =>
    match (message.get "content").bind Json.asArr with
    | none => some ""
    | some content => Bridge.chatTextGo content ""

/-- `Bridge::convert_event_to_webhook_format` from `src/bridge/mod.rs`. -/
def Bridge.convert_event_to_webhook_format (event : Json) : Option ConvertResult :=
  match (event.get "type").bind Json.asStr with
  | none => none
  | some etype =>
    if etype = "agent" then
      match (event.get "stream").bind Json.asStr, (event.get "sessionKey").bind Json.asStr with
      | some stream, some sessionKey =>
        if stream = "lifecycle" then
          match ((event.get "data").bind (fun d => d.get "phase")).bind Json.asStr with
          | some phase =>
            if phase = "end" ∨ phase = "complete" then some (.response "complete" "" sessionKey)
            else none
          | none => none
        else if stream = "assistant" then
          match ((event.get "data").bind (fun d => d.get "text")).bind Json.asStr with
          | some text =>
            if text ≠ "" then some (.response "progress" text sessionKey) else none
          | none => none
        else none
      | _, _ => none
    else if etype = "chat" then
      match (event.get "state").bind Json.asStr, (event.get "sessionKey").bind Json.asStr with
      | some state, some sessionKey =>
        match Bridge.chatText event with
        | none => none
        | some text =>
          if state = "final" then some (.response "complete" text sessionKey)
          else if state = "delta" then
            (if text ≠ "" then some (.response "progress" text sessionKey) else none)
          else if state = "error" then some (.response "error" "An error occurred" sessionKey)
          else none
      | _, _ => none
    else some (.passthrough event)

/-- The event-housekeeping check of `Bridge::handle_openclaw_event`. -/
def Bridge.isHousekeepingEvent (event : Json) : Bool :=
  match (event.get "event").bind Json.asStr with
  | some t => t == "lifecycle" || t == "tick" || t == "presence" || t == "health"
  | none => false

/-- An inbound upstream frame, after the JSON decode attempt of
`Bridge::handle_openclaw_event`. -/
inductive UpstreamFrame where
  | malformed (raw : String)
  | wellFormed (event : Json)

/-- The downstream-bound effect of `Bridge::handle_openclaw_event`. -/
inductive UpstreamAction where
  | dropped
  | forwardRaw (raw : String)
  | forwardConverted (result : ConvertResult)

/-- `Bridge::handle_openclaw_event` from `src/bridge/mod.rs`: note the
malformed case forwards the raw bytes downstream. -/
def Bridge.handle_openclaw_event : UpstreamFrame → UpstreamAction
  | .malformed raw => .forwardRaw raw
  | .wellFormed event =>
    if Bridge.isHousekeepingEvent event then .dropped
    else
      match Bridge.convert_event_to_webhook_format event with
      | some result => .forwardConverted result
      | none => .dropped

/-- The effect of one downstream inbound frame, as decided by
`Bridge::handle_webhook_message` and `Bridge::handle_command`. -/
inductive BridgeAction where
  | dropped
  | controlStub
  | commandReply (content session : String)
  | commandForward (content sessionKey : String)
  | agentForward (content sessionKey : String)
deriving DecidableEq

/-- `Bridge::handle_command` from `src/bridge/mod.rs`: a forward signal
re-sends the (trimmed) text upstream with the explicit session or
`"global"`; a reply is wrapped for the webhook with the same session. -/
def Bridge.handle_command (pkgVersion : String) (msg : Bridge.WebhookMessage) : BridgeAction :=
  match Commands.handle_command pkgVersion msg.content with
  | .forwardToGateway fc => .commandForward fc (msg.session.getD "global")
  | .reply r => .commandReply r (msg.session.getD "global")

/-- `Bridge::handle_webhook_message` from `src/bridge/mod.rs`, after JSON
parsing, as a pure step over the session store. `resetId` and `metaId` are
the two `generate_session_id()` draws, `now` the timestamp, `uid` the
bridge uid. -/
def Bridge.handle_webhook_message (agentId : String) (scope : SessionScope) (uid pkgVersion resetId metaId : String) (now : Int) (msg : Bridge.WebhookMessage) (s : SessionStore) : BridgeAction × SessionStore :=
  if Bridge.isControlMsgType msg.msg_type then (.dropped, s)
  else if msg.content = "" then (.dropped, s)
  else if Commands.is_command msg.content then
    (Bridge.handle_command pkgVersion msg, s)
  else
    let sessionKey := Bridge.resolve_session_key agentId scope msg
    let isReset := Bridge.is_reset_trigger msg.content
    let content := if isReset then Bridge.strip_reset_trigger msg.content else msg.content
    let deliveryTo := msg.peer_id.getD msg.id
    let ctx : DeliveryContext :=
      { channel := some "webhook", toDest := some deliveryTo,
        account_id := some uid, thread_id := Bridge.resolve_delivery_thread_id msg }
    let s1 := if isReset then Store.update_entry sessionKey (fun _ => freshEntry resetId now) s else s
    let s2 := Store.record_inbound_meta metaId now sessionKey msg.id ctx s1
    (.agentForward content sessionKey, s2)

/-- An inbound downstream frame as `Bridge::handle_webhook_message`
classifies the raw bytes: session-control envelope, unparsable JSON, or a
parsed conversational message. -/
inductive DownstreamFrame where
  | malformed
  | sessionControl
  | conversational (msg : Bridge.WebhookMessage)

/-- The frame-level dispatch of `Bridge::handle_webhook_message`: control
frames go to the stub handler, unparsable frames are dropped with the store
untouched. -/
def Bridge.handle_webhook_frame (agentId : String) (scope : SessionScope) (uid pkgVersion resetId metaId : String) (now : Int) (frame : DownstreamFrame) (s : SessionStore) : BridgeAction × SessionStore :=
  match frame with
  | .sessionControl => (.controlStub, s)
  | .malformed => (.dropped, s)
  | .conversational msg => Bridge.handle_webhook_message agentId scope uid pkgVersion resetId metaId now msg s

/-- One backoff update of the reconnect loops in `src/openclaw/mod.rs` and
`src/webhook/mod.rs`: success resets the delay to the initial value, failure
doubles it while it is still below the maximum. -/
def backoff_step (initial maxDelay delay : Nat) (success : Bool) : Nat :=
  if success then initial
  else if delay < maxDelay then delay * 2
  else delay

/-- The delay (seconds) slept before attempt N+1 after N consecutive failed
attempts, starting from the initial delay. -/
def delay_after_failures (initial maxDelay : Nat) : Nat → Nat
  | 0 => initial
  | n + 1 => backoff_step initial maxDelay (delay_after_failures initial maxDelay n) false

/-- The upstream (`src/openclaw/mod.rs`) reconnect delay: initial 1s, max
constant 30s. -/
def Openclaw.reconnect_delay_after (n : Nat) : Nat :=
  delay_after_failures 1 30 n

/-- The downstream (`src/webhook/mod.rs`) reconnect delay: initial 2s, max
constant 30s. -/
def Webhook.reconnect_delay_after (n : Nat) : Nat :=
  delay_after_failures 2 30 n

/-- The coalescing rule as the spec words it: first non-empty, trimmed, of
the candidate fields. -/
def Spec.firstNonEmptyTrimmed (candidates : List (Option String)) : Option String :=
  (candidates.filterMap (fun c => c.map strTrim)).find? (fun t => t != "")

/-- The session-key resolution policy as the spec words it: an explicit
session is trimmed and used verbatim; else the composite
`webhook:<agentId>:<peerKind>:<peerId>` with `:<topicId>` and `:<threadId>`
appended only when non-empty, built only when both coalesced peer-kind and
peer-id are non-empty; else the scope fallback. -/
def Spec.resolveSessionKey (agentId : String) (scope : SessionScope) (msg : Bridge.WebhookMessage) : String :=
  match msg.session with
  | some session => strTrim session
  | none =>
    match Spec.firstNonEmptyTrimmed [msg.peer_kind, msg.chat_type],
        Spec.firstNonEmptyTrimmed [msg.peer_id, msg.chat_id, msg.sender_id] with
    | some kind, some pid =>
      let key := "webhook:" ++ agentId ++ ":" ++ kind ++ ":" ++ pid
      let key := match msg.topic_id with
        | some topic => if topic ≠ "" then key ++ ":" ++ topic else key
        | none => key
      match msg.thread_id with
      | some thread => if thread ≠ "" then key ++ ":" ++ thread else key
      | none => key
    | _, _ =>
      Sessions.resolve_session_key scope { id := msg.id, content := msg.content, session := msg.session }

/-- The accumulated chat text as the spec words it: the concatenation, in
order, of the `text` fields of the items whose own `type` equals `"text"`. -/
def Spec.chatText (items : List Json) : String :=
  items.foldl (fun acc item =>
    if (item.get "type").bind Json.asStr = some "text" then
      match (item.get "text").bind Json.asStr with
      | some tx => acc ++ tx
      | none => acc
    else acc) ""

/-- A conversational message with only the required fields set, used as the
base of concrete test inputs. -/
def msgBase : Bridge.WebhookMessage :=
  { id := "m1", content := "hi", session := none, peer_kind := none, peer_id := none,
    chat_type := none, chat_id := none, sender_id := none, topic_id := none,
    thread_id := none, msg_type := none }

/-- Lookup after insert returns the inserted entry. -/
theorem SessionStore.find_insert (s : SessionStore) (key : String) (e : SessionEntry) :
    (s.insert key e).find key = some e := by
  simp [SessionStore.insert, SessionStore.find, List.find?]

theorem coalesce_eq_firstNonEmptyTrimmed (l : List (Option String)) :
    Bridge.coalesce_string l = Spec.firstNonEmptyTrimmed l := by
  induction l with
  | nil => rfl
  | cons head rest ih =>
    cases head with
    | none =>
      simpa [Bridge.coalesce_string, Spec.firstNonEmptyTrimmed] using ih
    | some v =>
      by_cases h : strTrim v = ""
      · simp only [Bridge.coalesce_string, Spec.firstNonEmptyTrimmed, List.filterMap_cons,
          Option.map_some', List.find?] at ih ⊢
        simp [h, ih]
      · have hb : (strTrim v != "") = true := by simpa using h
        simp [Bridge.coalesce_string, Spec.firstNonEmptyTrimmed, List.find?, h, hb]

theorem coalesce_string_ne_empty (l : List (Option String)) (v : String)
    (h : Bridge.coalesce_string l = some v) : v ≠ "" := by
  induction l with
  | nil => cases h
  | cons head rest ih =>
    cases head with
    | none => exact ih (by simpa [Bridge.coalesce_string] using h)
    | some w =>
      by_cases hw : strTrim w = ""
      · exact ih (by simpa [Bridge.coalesce_string, hw] using h)
      · simp only [Bridge.coalesce_string, if_neg hw] at h
        cases h
        exact hw

theorem append_left_eq_empty {a b : String} (h : a ++ b = "") : a = "" := by
  have hl := congrArg String.length h
  rw [String.length_append] at hl
  have ha : a.length = 0 := by
    have : String.length "" = 0 := rfl
    omega
  apply String.ext
  have : a.data.length = 0 := ha
  simpa using List.length_eq_zero.mp this

theorem append_ne_empty_left {a : String} (b : String) (h : a ≠ "") : a ++ b ≠ "" :=
  fun hc => h (append_left_eq_empty hc)

theorem suffix_step_ne_empty (key : String) (t : Option String) (hk : key ≠ "") :
    (match t with
      | some x => if x ≠ "" then key ++ ":" ++ x else key
      | none => key) ≠ "" := by
  cases t with
  | none => exact hk
  | some x =>
    by_cases hx : x ≠ ""
    · simp only [if_pos hx]
      exact append_ne_empty_left _ (append_ne_empty_left _ hk)
    · simp only [if_neg hx]
      exact hk

theorem build_webhook_session_key_ne_empty (params : Sessions.WebhookSessionParams) (key : String)
    (h : Sessions.build_webhook_session_key params = some key) : key ≠ "" := by
  unfold Sessions.build_webhook_session_key at h
  split at h
  · cases h
  · have hbase : ("webhook:" ++ params.agent_id ++ ":" ++ params.peer_kind ++ ":" ++ params.peer_id) ≠ "" := by
      apply append_ne_empty_left
      apply append_ne_empty_left
      apply append_ne_empty_left
      apply append_ne_empty_left
      apply append_ne_empty_left
      decide
    cases h
    exact suffix_step_ne_empty _ _ (suffix_step_ne_empty _ _ hbase)

/-- The orchestrator resolver agrees everywhere with the spec-worded
resolution policy. -/
theorem resolve_session_key_eq_spec (agentId : String) (scope : SessionScope) (msg : Bridge.WebhookMessage) :
    Bridge.resolve_session_key agentId scope msg = Spec.resolveSessionKey agentId scope msg := by
  unfold Bridge.resolve_session_key Spec.resolveSessionKey
  cases msg.session with
  | some s => rfl
  | none =>
    rw [← coalesce_eq_firstNonEmptyTrimmed, ← coalesce_eq_firstNonEmptyTrimmed]
    cases hk : Bridge.coalesce_string [msg.peer_kind, msg.chat_type] with
    | none => rfl
    | some kind =>
      cases hi : Bridge.coalesce_string [msg.peer_id, msg.chat_id, msg.sender_id] with
      | none => rfl
      | some pid =>
        have hkne := coalesce_string_ne_empty _ _ hk
        have hine := coalesce_string_ne_empty _ _ hi
        simp only [Sessions.build_webhook_session_key]
        rw [if_neg (by
          intro hor
          cases hor with
          | inl h => exact hkne h
          | inr h => exact hine h)]

/-- C1: for every inbound conversational message the resolved session key
follows first-match precedence — an explicit session field is trimmed and
used verbatim; otherwise, when both the coalesced peer-kind (first
non-empty, trimmed, of peerKind then chatType) and the coalesced peer-id
(first non-empty, trimmed, of peerId then chatId then senderId) are
non-empty, the key is `webhook:<agentId>:<peerKind>:<peerId>` with
`:<topicId>` and `:<threadId>` appended only when non-empty; otherwise the
scope fallback applies. In particular explicit session wins over peer
fields. -/
theorem c1_session_key_precedence (agentId : String) (scope : SessionScope) (msg : Bridge.WebhookMessage) :
    Bridge.resolve_session_key agentId scope msg = Spec.resolveSessionKey agentId scope msg :=
  resolve_session_key_eq_spec agentId scope msg

theorem spec_resolve_ne_empty (agentId : String) (scope : SessionScope) (msg : Bridge.WebhookMessage)
    (hn : msg.session = none) : Spec.resolveSessionKey agentId scope msg ≠ "" := by
  unfold Spec.resolveSessionKey
  rw [hn]
  cases hk : Spec.firstNonEmptyTrimmed [msg.peer_kind, msg.chat_type] with
  | none =>
    cases scope with
    | Global => exact (by decide : ("global" : String) ≠ "")
    | PerSender => exact append_ne_empty_left _ (by decide)
  | some kind =>
    cases hi : Spec.firstNonEmptyTrimmed [msg.peer_id, msg.chat_id, msg.sender_id] with
    | none =>
      cases scope with
      | Global => exact (by decide : ("global" : String) ≠ "")
      | PerSender => exact append_ne_empty_left _ (by decide)
    | some pid =>
      have hbase : ("webhook:" ++ agentId ++ ":" ++ kind ++ ":" ++ pid) ≠ "" := by
        apply append_ne_empty_left
        apply append_ne_empty_left
        apply append_ne_empty_left
        apply append_ne_empty_left
        apply append_ne_empty_left
        decide
      exact suffix_step_ne_empty _ _ (suffix_step_ne_empty _ _ hbase)

/-- C7 counterexample: a message whose explicit session is only whitespace
resolves to the empty session key, so the resolved key is not always
non-empty. -/
theorem c7_whitespace_session_key_empty :
    Bridge.resolve_session_key "main" SessionScope.PerSender { msgBase with session := some "   " } = "" := by
  decide

/-- C7 amended: when an explicit session is present the resolved key is its
trim — possibly empty, as a whitespace-only session shows; when no explicit
session is present the resolved key is non-empty. -/
theorem c7_amended_key_shape (agentId : String) (scope : SessionScope) (msg : Bridge.WebhookMessage) :
    (∀ s, msg.session = some s → Bridge.resolve_session_key agentId scope msg = strTrim s) ∧
    (msg.session = none → Bridge.resolve_session_key agentId scope msg ≠ "") := by
  constructor
  · intro s hs
    simp [Bridge.resolve_session_key, hs, Sessions.normalize_session_key]
  · intro hn
    rw [resolve_session_key_eq_spec]
    exact spec_resolve_ne_empty agentId scope msg hn

/-- C7 witness: the amended statement at concrete inputs — an explicit
session is trimmed, and a message with no session resolves to a non-empty
key. -/
theorem c7_amended_key_shape_witness :
    Bridge.resolve_session_key "main" SessionScope.PerSender { msgBase with session := some " S7 " } = strTrim " S7 " ∧
    Bridge.resolve_session_key "main" SessionScope.Global msgBase ≠ "" :=
  ⟨(c7_amended_key_shape "main" SessionScope.PerSender { msgBase with session := some " S7 " }).1 " S7 " rfl,
   (c7_amended_key_shape "main" SessionScope.Global msgBase).2 rfl⟩

/-- C8 counterexample: under Global scope an explicit session still wins,
and peer fields still produce a composite key — the resolver does not yield
`"global"` for every input. -/
theorem c8_global_scope_not_constant :
    Bridge.resolve_session_key "main" SessionScope.Global { msgBase with session := some "S1" } = "S1" ∧
    Bridge.resolve_session_key "main" SessionScope.Global { msgBase with peer_kind := some "dm", peer_id := some "u1" } = "webhook:main:dm:u1" := by
  constructor
  · decide
  · decide

/-- C8 amended: the scope-fallback resolver yields `"global"` under Global
scope for any input, and the orchestrator resolver yields `"global"` under
Global scope exactly on messages with no explicit session and no buildable
composite (some coalesced peer component empty). -/
theorem c8_amended_global_scope (agentId : String) (msg : Bridge.WebhookMessage) (fmsg : Sessions.WebhookMessage) :
    Sessions.resolve_session_key SessionScope.Global fmsg = "global" ∧
    (msg.session = none →
      (Bridge.coalesce_string [msg.peer_kind, msg.chat_type] = none ∨
        Bridge.coalesce_string [msg.peer_id, msg.chat_id, msg.sender_id] = none) →
      Bridge.resolve_session_key agentId SessionScope.Global msg = "global") := by
  constructor
  · rfl
  · intro hn hor
    unfold Bridge.resolve_session_key
    rw [hn]
    cases hor with
    | inl hk =>
      rw [hk]
      cases Bridge.coalesce_string [msg.peer_id, msg.chat_id, msg.sender_id] <;> rfl
    | inr hi =>
      rw [hi]
      cases Bridge.coalesce_string [msg.peer_kind, msg.chat_type] <;> rfl

/-- C8 witness: the amended statement at concrete inputs. -/
theorem c8_amended_global_scope_witness :
    Sessions.resolve_session_key SessionScope.Global { id := "m1", content := "hi", session := none } = "global" ∧
    Bridge.resolve_session_key "main" SessionScope.Global msgBase = "global" :=
  ⟨(c8_amended_global_scope "main" msgBase { id := "m1", content := "hi", session := none }).1,
   (c8_amended_global_scope "main" msgBase { id := "m1", content := "hi", session := none }).2 rfl (Or.inl rfl)⟩

/-- C10: with no explicit session and no buildable composite, PerSender
scope resolves to `"webhook:"` followed by the raw message id — the same
namespace prefix as composite keys, so a fallback key can textually collide
with a composite key, as the concrete conjunct shows. -/
theorem c10_persender_fallback_key (agentId : String) (msg : Bridge.WebhookMessage)
    (hs : msg.session = none)
    (hor : Bridge.coalesce_string [msg.peer_kind, msg.chat_type] = none ∨
        Bridge.coalesce_string [msg.peer_id, msg.chat_id, msg.sender_id] = none) :
    Bridge.resolve_session_key agentId SessionScope.PerSender msg = "webhook:" ++ msg.id ∧
    Bridge.resolve_session_key "main" SessionScope.PerSender { msgBase with id := "main:dm:u1" } =
      Bridge.resolve_session_key "main" SessionScope.PerSender { msgBase with peer_kind := some "dm", peer_id := some "u1" } := by
  constructor
  · unfold Bridge.resolve_session_key
    rw [hs]
    cases hor with
    | inl hk =>
      rw [hk]
      cases Bridge.coalesce_string [msg.peer_id, msg.chat_id, msg.sender_id] <;> rfl
    | inr hi =>
      rw [hi]
      cases Bridge.coalesce_string [msg.peer_kind, msg.chat_type] <;> rfl
  · decide

/-- C10 witness: the fallback key at a concrete message. -/
theorem c10_persender_fallback_key_witness :
    Bridge.resolve_session_key "main" SessionScope.PerSender msgBase = "webhook:" ++ msgBase.id ∧
    Bridge.resolve_session_key "main" SessionScope.PerSender { msgBase with id := "main:dm:u1" } =
      Bridge.resolve_session_key "main" SessionScope.PerSender { msgBase with peer_kind := some "dm", peer_id := some "u1" } :=
  c10_persender_fallback_key "main" msgBase rfl (Or.inl rfl)

/-- C2 counterexample: a message whose content is a reset trigger (exactly,
or trigger plus remainder) is dispatched as a command and forwarded to the
gateway whole, with the store — here holding an entry under the very key
the message would resolve to — left untouched: no entry is replaced and no
remainder is stripped. -/
theorem c2_reset_trigger_goes_to_command_path :
    Bridge.handle_webhook_message "main" SessionScope.PerSender "uid0" "0.1.0" "fresh1" "fresh2" 5
        { msgBase with content := "/new" } [("webhook:m1", freshEntry "old" 3)] =
      (BridgeAction.commandForward "/new" "global", [("webhook:m1", freshEntry "old" 3)]) ∧
    Bridge.handle_webhook_message "main" SessionScope.PerSender "uid0" "0.1.0" "fresh1" "fresh2" 5
        { msgBase with content := "/new hello" } [("webhook:m1", freshEntry "old" 3)] =
      (BridgeAction.commandForward "/new hello" "global", [("webhook:m1", freshEntry "old" 3)]) := by
  constructor
  · decide
  · decide

/-- C2 amended: any conversational message whose trimmed content starts
with `/` — which includes the reset triggers and their trigger-plus-
remainder forms — is dispatched as a command; unless it is `/help` or
`/version` it is forwarded to the gateway verbatim (trimmed) under the
explicit session or `"global"`, and the session store is not modified. The
reset-replacement branch is unreachable for such content: every reset
trigger is itself classified as a command. -/
theorem c2_amended_commands_bypass_reset (agentId : String) (scope : SessionScope)
    (uid pkgVersion resetId metaId : String) (now : Int) (msg : Bridge.WebhookMessage) (s : SessionStore)
    (hctrl : Bridge.isControlMsgType msg.msg_type = false)
    (hne : ¬ msg.content = "")
    (hcmd : Commands.is_command msg.content = true)
    (hfwd : Commands.should_forward_to_gateway (strTrim msg.content) = true) :
    Bridge.handle_webhook_message agentId scope uid pkgVersion resetId metaId now msg s =
      (BridgeAction.commandForward (strTrim msg.content) (msg.session.getD "global"), s) ∧
    (∀ content, Bridge.is_reset_trigger content = true → Commands.is_command content = true) := by
  constructor
  · unfold Bridge.handle_webhook_message Bridge.handle_command Commands.handle_command
    rw [hctrl]
    simp only [Bool.false_eq_true, if_false, if_neg hne, hcmd, if_true]
    rw [hfwd]
    simp
  · intro content h
    simp only [Bridge.is_reset_trigger, DEFAULT_RESET_TRIGGERS, List.any_cons, List.any_nil,
      Bool.or_false, Bool.or_eq_true, beq_iff_eq] at h
    cases h with
    | inl h => simp only [Commands.is_command, h]; decide
    | inr h => simp only [Commands.is_command, h]; decide

/-- C2 witness: the amended statement at a concrete reset-trigger input. -/
theorem c2_amended_commands_bypass_reset_witness :
    Bridge.handle_webhook_message "main" SessionScope.PerSender "u" "v" "r" "m" 1
        { msgBase with content := "/new" } [] =
      (BridgeAction.commandForward "/new" "global", ([] : SessionStore)) ∧
    (∀ content, Bridge.is_reset_trigger content = true → Commands.is_command content = true) :=
  c2_amended_commands_bypass_reset "main" SessionScope.PerSender "u" "v" "r" "m" 1
    { msgBase with content := "/new" } [] rfl (by decide) (by decide) (by decide)

/-- C3: `record_inbound_meta` then lookup yields an entry whose `updatedAt`
is the recording timestamp (hence at least the prior value under a
monotone clock), whose `sessionId` is preserved when an entry existed and
freshly generated only when absent, and whose delivery-context, last-route
fields and last inbound message id are overwritten from the context. -/
theorem c3_record_inbound_meta (freshId : String) (now : Int) (key msgId : String)
    (ctx : DeliveryContext) (s : SessionStore)
    (hclock : ∀ e, s.find key = some e → e.updated_at ≤ now) :
    ∃ e', (Store.record_inbound_meta freshId now key msgId ctx s).find key = some e' ∧
      e'.updated_at = now ∧
      (∀ e, s.find key = some e → e.updated_at ≤ e'.updated_at ∧ e'.session_id = e.session_id) ∧
      (s.find key = none → e'.session_id = freshId) ∧
      e'.delivery_context = some ctx ∧
      e'.last_channel = ctx.channel ∧
      e'.last_to = ctx.toDest ∧
      e'.last_account_id = ctx.account_id ∧
      e'.last_thread_id = ctx.thread_id ∧
      e'.webhook_message_id = some msgId := by
  unfold Store.record_inbound_meta Store.update_entry
  refine ⟨_, SessionStore.find_insert _ _ _, rfl, ?_, ?_, rfl, rfl, rfl, rfl, rfl, rfl⟩
  · intro e he
    simp only [he]
    exact ⟨hclock e he, trivial⟩
  · intro h0
    simp only [h0]
    rfl

/-- C3 witness: the statement at a concrete store holding an entry with an
earlier timestamp. -/
theorem c3_record_inbound_meta_witness :
    ∃ e', (Store.record_inbound_meta "f" 5 "k" "mm"
        { channel := some "webhook", toDest := some "u7", account_id := some "acc", thread_id := none }
        [("k", freshEntry "old" 3)]).find "k" = some e' ∧
      e'.updated_at = 5 ∧
      (∀ e, SessionStore.find [("k", freshEntry "old" 3)] "k" = some e →
        e.updated_at ≤ e'.updated_at ∧ e'.session_id = e.session_id) ∧
      (SessionStore.find [("k", freshEntry "old" 3)] "k" = none → e'.session_id = "f") ∧
      e'.delivery_context = some { channel := some "webhook", toDest := some "u7", account_id := some "acc", thread_id := none } ∧
      e'.last_channel = some "webhook" ∧
      e'.last_to = some "u7" ∧
      e'.last_account_id = some "acc" ∧
      e'.last_thread_id = none ∧
      e'.webhook_message_id = some "mm" :=
  c3_record_inbound_meta "f" 5 "k" "mm"
    { channel := some "webhook", toDest := some "u7", account_id := some "acc", thread_id := none }
    [("k", freshEntry "old" 3)]
    (by intro e he; injection he with h; subst h; decide)

/-- C9 counterexample: `update_last_route` with a context carrying a new
`to` and a new thread id leaves the stored `lastTo` and `lastThreadId`
unchanged — only the timestamp moves — so the claim that every present
route field (channel, to, account id, thread id) is overwritten fails. -/
theorem c9_update_last_route_ignores_to_and_thread :
    (Store.update_last_route "f" 5 "k"
        { channel := none, toDest := some "newTo", account_id := none, thread_id := some "newTh" }
        [("k", { freshEntry "old" 3 with last_to := some "oldTo", last_thread_id := some "oldTh" })]).find "k" =
      some { freshEntry "old" 3 with last_to := some "oldTo", last_thread_id := some "oldTh", updated_at := 5 } := by
  decide

/-- C9 amended: for an existing entry, `update_last_route` bumps
`updatedAt` and overwrites only `lastChannel` and `lastAccountId`, each
only when present in the context; `lastTo`, `lastThreadId` and every other
field — sessionId, sessionFile, deliveryContext, webhookMessageId,
webhookSessionId — are preserved. -/
theorem c9_amended_update_last_route (freshId : String) (now : Int) (key : String)
    (ctx : DeliveryContext) (s : SessionStore) (e : SessionEntry)
    (h : s.find key = some e) :
    (Store.update_last_route freshId now key ctx s).find key =
      some { e with
        updated_at := now
        last_channel := if ctx.channel.isSome then ctx.channel else e.last_channel
        last_account_id := if ctx.account_id.isSome then ctx.account_id else e.last_account_id } := by
  unfold Store.update_last_route Store.update_entry
  rw [SessionStore.find_insert, h]
  cases hc : ctx.channel <;> cases ha : ctx.account_id <;> simp [hc, ha]

/-- C9 witness: the amended statement at a concrete store and context. -/
theorem c9_amended_update_last_route_witness :
    (Store.update_last_route "f" 7 "k"
        { channel := some "tele", toDest := some "ignored", account_id := none, thread_id := some "ignored2" }
        [("k", freshEntry "x" 1)]).find "k" =
      some { freshEntry "x" 1 with updated_at := 7, last_channel := some "tele" } :=
  c9_amended_update_last_route "f" 7 "k"
    { channel := some "tele", toDest := some "ignored", account_id := none, thread_id := some "ignored2" }
    [("k", freshEntry "x" 1)] (freshEntry "x" 1) rfl

theorem chatTextGo_all_typed (items : List Json) (acc : String)
    (h : items.all (fun it => ((it.get "type").bind Json.asStr).isSome) = true) :
    Bridge.chatTextGo items acc = some (items.foldl (fun acc item =>
      if (item.get "type").bind Json.asStr = some "text" then
        match (item.get "text").bind Json.asStr with
        | some tx => acc ++ tx
        | none => acc
      else acc) acc) := by
  induction items generalizing acc with
  | nil => rfl
  | cons it rest ih =>
    rw [List.all_cons, Bool.and_eq_true] at h
    obtain ⟨t, ht⟩ := Option.isSome_iff_exists.mp h.1
    by_cases htx : t = "text"
    · subst htx
      cases h2 : (it.get "text").bind Json.asStr with
      | some tx =>
        simp only [Bridge.chatTextGo, ht, h2, List.foldl_cons, if_true]
        exact ih (acc ++ tx) h.2
      | none =>
        simp only [Bridge.chatTextGo, ht, h2, List.foldl_cons, if_true]
        exact ih acc h.2
    · simp only [Bridge.chatTextGo, ht, List.foldl_cons]
      rw [if_neg htx, if_neg (by simp [htx])]
      exact ih acc h.2

/-- C4 counterexample: a `chat`/`final` event whose content array holds a
text item followed by an item with no `type` field yields no output at all
— the Rust `?` aborts the whole conversion — instead of the claimed
`complete` with the accumulated text of the text items. -/
theorem c4_untyped_item_aborts_chat :
    Bridge.convert_event_to_webhook_format
        (Json.obj [("type", Json.str "chat"), ("state", Json.str "final"), ("sessionKey", Json.str "S"),
          ("message", Json.obj [("content",
            Json.arr [Json.obj [("type", Json.str "text"), ("text", Json.str "a")], Json.obj []])])]) =
      none := by
  rfl

/-- C4 amended: for a `chat` event with string `state` and `sessionKey`,
whose `message.content` is an array in which every item carries a string
`type` field, the accumulated text is the in-order concatenation of the
`text` fields of the items typed `"text"` (non-text items contribute
nothing), and `state = "final"` emits `complete` with that text. An item
without a string `type` aborts the conversion (see the counterexample). -/
theorem c4_chat_final_accumulation (event msgObj : Json) (sk : String) (items : List Json)
    (h1 : (event.get "type").bind Json.asStr = some "chat")
    (h2 : (event.get "state").bind Json.asStr = some "final")
    (h3 : (event.get "sessionKey").bind Json.asStr = some sk)
    (h4 : event.get "message" = some msgObj)
    (h5 : (msgObj.get "content").bind Json.asArr = some items)
    (h6 : items.all (fun it => ((it.get "type").bind Json.asStr).isSome) = true) :
    Bridge.convert_event_to_webhook_format event =
      some (.response "complete" (Spec.chatText items) sk) := by
  have hacc := chatTextGo_all_typed items "" h6
  unfold Bridge.convert_event_to_webhook_format Bridge.chatText
  rw [h1]
  simp only [h2, h3, h4, h5, hacc, Spec.chatText]
  simp

/-- C4 witness: the spec's own example event evaluates to `complete` with
the accumulated text. -/
theorem c4_chat_final_accumulation_witness :
    Bridge.convert_event_to_webhook_format
        (Json.obj [("type", Json.str "chat"), ("state", Json.str "final"), ("sessionKey", Json.str "S"),
          ("message", Json.obj [("content",
            Json.arr [Json.obj [("type", Json.str "text"), ("text", Json.str "hello")]])])]) =
      some (.response "complete"
        (Spec.chatText [Json.obj [("type", Json.str "text"), ("text", Json.str "hello")]]) "S") :=
  c4_chat_final_accumulation
    (Json.obj [("type", Json.str "chat"), ("state", Json.str "final"), ("sessionKey", Json.str "S"),
      ("message", Json.obj [("content",
        Json.arr [Json.obj [("type", Json.str "text"), ("text", Json.str "hello")]])])])
    (Json.obj [("content", Json.arr [Json.obj [("type", Json.str "text"), ("text", Json.str "hello")]])])
    "S"
    [Json.obj [("type", Json.str "text"), ("text", Json.str "hello")]]
    rfl rfl rfl rfl rfl rfl

theorem openclaw_delay_closed (n : Nat) :
    Openclaw.reconnect_delay_after n = min (2 ^ n) 32 := by
  induction n with
  | zero => decide
  | succ n ih =>
    rcases Nat.lt_or_ge n 5 with h | h
    · interval_cases n <;> decide
    · have h32 : 32 ≤ 2 ^ n := by
        calc (32 : Nat) = 2 ^ 5 := by decide
          _ ≤ 2 ^ n := Nat.pow_le_pow_right (by decide) h
      have hs : (2 : Nat) ^ (n + 1) = 2 ^ n * 2 := pow_succ 2 n
      have hih : delay_after_failures 1 30 n = min (2 ^ n) 32 := ih
      have h32s : 32 ≤ 2 ^ (n + 1) := by rw [hs]; omega
      unfold Openclaw.reconnect_delay_after delay_after_failures backoff_step
      rw [hih, if_neg (by decide), Nat.min_eq_right h32, if_neg (by omega),
        Nat.min_eq_right h32s]

theorem webhook_delay_closed (n : Nat) :
    Webhook.reconnect_delay_after n = min (2 ^ (n + 1)) 32 := by
  induction n with
  | zero => decide
  | succ n ih =>
    rcases Nat.lt_or_ge n 4 with h | h
    · interval_cases n <;> decide
    · have h32 : 32 ≤ 2 ^ (n + 1) := by
        calc (32 : Nat) = 2 ^ 5 := by decide
          _ ≤ 2 ^ (n + 1) := Nat.pow_le_pow_right (by decide) (by omega)
      have hs : (2 : Nat) ^ (n + 1 + 1) = 2 ^ (n + 1) * 2 := pow_succ 2 (n + 1)
      have hih : delay_after_failures 2 30 n = min (2 ^ (n + 1)) 32 := ih
      have h32s : 32 ≤ 2 ^ (n + 1 + 1) := by rw [hs]; omega
      unfold Webhook.reconnect_delay_after delay_after_failures backoff_step
      rw [hih, if_neg (by decide), Nat.min_eq_right h32, if_neg (by omega),
        Nat.min_eq_right h32s]

/-- C5 counterexample: after one failed attempt the upstream loop waits 2s,
not the claimed `min(1*2^0, 30) = 1`s, and after five failures it waits
32s, exceeding the claimed 30s ceiling; the downstream loop likewise waits
4s after one failure instead of the claimed 2s. -/
theorem c5_backoff_first_delay_and_cap :
    Openclaw.reconnect_delay_after 1 = 2 ∧
    min (1 * 2 ^ (1 - 1)) 30 = 1 ∧
    Openclaw.reconnect_delay_after 5 = 32 ∧
    Webhook.reconnect_delay_after 1 = 4 ∧
    min (2 * 2 ^ (1 - 1)) 30 = 2 := by
  decide

/-- C5 amended: after N consecutive failed attempts the delay before
attempt N+1 is `min(initial * 2^N, 32)` — the doubling is applied before
the first wait as well, and the effective ceiling is 32s, the first
doubled value at or above the 30s constant; after any successful
connection the delay resets to the initial value (1s upstream, 2s
downstream). -/
theorem c5_amended_reconnect_backoff (n d : Nat) :
    Openclaw.reconnect_delay_after n = min (1 * 2 ^ n) 32 ∧
    Webhook.reconnect_delay_after n = min (2 * 2 ^ n) 32 ∧
    backoff_step 1 30 d true = 1 ∧
    backoff_step 2 30 d true = 2 := by
  refine ⟨?_, ?_, rfl, rfl⟩
  · rw [one_mul]
    exact openclaw_delay_closed n
  · rw [show (2 : Nat) * 2 ^ n = 2 ^ (n + 1) from (pow_succ' 2 n).symm]
    exact webhook_delay_closed n

/-- C6 counterexample: an upstream frame whose bytes are not valid JSON is
not dropped — `handle_openclaw_event` forwards the raw bytes downstream
unchanged. -/
theorem c6_malformed_upstream_forwarded :
    Bridge.handle_openclaw_event (.malformed "not json") = .forwardRaw "not json" :=
  rfl

/-- C6 amended: a malformed downstream frame is dropped with the store
untouched and nothing forwarded, but a malformed upstream frame is
forwarded raw to the webhook channel rather than dropped. -/
theorem c6_amended_malformed_frames (agentId : String) (scope : SessionScope)
    (uid pkgVersion resetId metaId : String) (now : Int) (s : SessionStore) (raw : String) :
    Bridge.handle_webhook_frame agentId scope uid pkgVersion resetId metaId now .malformed s =
      (BridgeAction.dropped, s) ∧
    Bridge.handle_openclaw_event (.malformed raw) = .forwardRaw raw :=
  ⟨rfl, rfl⟩
